import Mathlib

/-!
Formal model of the AAS ad-campaign generation backend.

This file gives a shallow embedding, in Lean, of the fallback pipeline of the
repository: the heuristic mock analyzers, the mock copy and image generators,
the universal reference search, and the free campaign endpoint of app/main.py.
Network calls (Groq, HuggingFace, Pexels, Unsplash, Pixabay) are modelled by an
oracle record whose functions are consulted only when the corresponding
credential flag is set, exactly as the Python code guards each call with the
presence of an API key.  All deterministic logic is translated directly from
the source files:

  app/services/free_search_ai_system.py   (FreeSearchAISystem)
  app/services/truly_universal_search.py  (TrulyUniversalSearch)
  app/services/ai_generator_real.py       (AIGeneratorReal)
  app/main.py                             (generate_free_campaign, the second
                                           definition, which overrides the
                                           first, and create_free_campaign)

Numeric conventions: Python float literals used by the source are the exact
rationals 0.75 = 3/4, 0.60 = 3/5, 0.80, 0.03, ... ; every arithmetic result
the code computes with them (for example int(preco_base * fator_preco) for the
base prices 5000, 7000, 3500, 4000, 2000, 1500, 2500 of the brand table) is an
exact integer that binary64 arithmetic also produces exactly, so prices are
embedded with exact integer and rational arithmetic.  Confidence scores are
embedded as rationals.
-/

namespace AAS

/-! ## Python string primitives -/

/-- Lowercasing of one character as Python str.lower does on the alphabets the
source uses: ASCII letters plus the Latin-1 accented range U+00C0..U+00DE
(except the multiplication sign U+00D7). -/
def lowerChar (c : Char) : Char :=
  if 'A' ≤ c ∧ c ≤ 'Z' then Char.ofNat (c.toNat + 32)
  else if 0xC0 ≤ c.toNat ∧ c.toNat ≤ 0xDE ∧ c.toNat ≠ 0xD7 then Char.ofNat (c.toNat + 32)
  else c

/-- Uppercasing of one character (used only by pyTitle). -/
def upperChar (c : Char) : Char :=
  if 'a' ≤ c ∧ c ≤ 'z' then Char.ofNat (c.toNat - 32)
  else if 0xE0 ≤ c.toNat ∧ c.toNat ≤ 0xFE ∧ c.toNat ≠ 0xF7 then Char.ofNat (c.toNat - 32)
  else c

/-- Python str.lower on the character ranges relevant to this code base. -/
def pyLower (s : String) : String := String.mk (s.toList.map lowerChar)

/-- Whether the character list starting here begins with the needle. -/
def charStarts : List Char → List Char → Bool
  | [], _ => true
  | _ :: _, [] => false
  | a :: as, b :: bs => a == b && charStarts as bs

/-- Whether the needle occurs somewhere in the haystack. -/
def charSub (needle : List Char) : List Char → Bool
  | [] => charStarts needle []
  | c :: cs => charStarts needle (c :: cs) || charSub needle cs

/-- Python membership test x in s for strings (substring containment). -/
def strContains (hay needle : String) : Bool :=
  charSub needle.toList hay.toList

/-- Python any(kw in hay for kw in kws). -/
def containsAny (hay : String) (kws : List String) : Bool :=
  kws.any (fun kw => strContains hay kw)

/-- Whitespace for Python str.split and str.strip (the characters that occur
in this code base). -/
def pyIsSpace (c : Char) : Bool := c == ' ' || c == '\t' || c == '\n' || c == '\r'

/-- Helper for pySplit: walk the characters, accumulating the current word in
reverse. -/
def pySplitAux : List Char → List Char → List String
  | [], cur => if cur.isEmpty then [] else [String.mk cur.reverse]
  | c :: cs, cur =>
    if pyIsSpace c then
      (if cur.isEmpty then pySplitAux cs [] else String.mk cur.reverse :: pySplitAux cs [])
    else pySplitAux cs (c :: cur)

/-- Python str.split with no argument: split on whitespace runs, dropping
empty words. -/
def pySplit (s : String) : List String := pySplitAux s.toList []

/-- Python str.strip with no argument: drop whitespace at both ends. -/
def pyStrip (s : String) : String :=
  String.mk (((s.toList.dropWhile pyIsSpace).reverse.dropWhile pyIsSpace).reverse)

/-- Python str.strip(chars): drop characters of the given set at both ends. -/
def pyStripChars (cset : List Char) (s : String) : String :=
  String.mk (((s.toList.dropWhile (cset.contains ·)).reverse.dropWhile
    (cset.contains ·)).reverse)

/-- Helper for pyReplace: fuel-indexed left-to-right non-overlapping
replacement of a nonempty pattern. -/
def replaceFuel (pat rep : List Char) : Nat → List Char → List Char
  | 0, l => l
  | _ + 1, [] => []
  | n + 1, c :: cs =>
    if pat ≠ [] && charStarts pat (c :: cs) then
      rep ++ replaceFuel pat rep n (List.drop (pat.length - 1) cs)
    else c :: replaceFuel pat rep n cs

/-- Python str.replace(pat, rep) for a nonempty pattern (every pattern the
source replaces is nonempty). -/
def pyReplace (s pat rep : String) : String :=
  String.mk (replaceFuel pat.toList rep.toList s.toList.length s.toList)

/-- Replace single characters by a space (used for the - and / cleanup). -/
def mapCharsToSpace (cs : List Char) (s : String) : String :=
  String.mk (s.toList.map (fun c => if cs.contains c then ' ' else c))

/-- Python list(set(xs)) modelled as first-occurrence deduplication.  CPython
set iteration order depends on string hashing; only the member set matters to
the code, so a deterministic order is chosen here. -/
def dedupFirst : List String → List String
  | [] => []
  | x :: xs => if (dedupFirst xs).contains x then dedupFirst xs else x :: dedupFirst xs

/-- Python str.title restricted to the alphabets the source uses: uppercase a
letter that follows a non-letter, lowercase a letter that follows a letter. -/
def isAlphaPy (c : Char) : Bool :=
  c.isAlpha || (0xC0 ≤ c.toNat && c.toNat ≤ 0xFF && c.toNat ≠ 0xD7 && c.toNat ≠ 0xF7)

/-- Helper for pyTitle carrying whether the previous character was a letter. -/
def pyTitleGo : Bool → List Char → List Char
  | _, [] => []
  | prevAlpha, c :: cs =>
    (if prevAlpha then lowerChar c else upperChar c) :: pyTitleGo (isAlphaPy c) cs

/-- Python str.title on the alphabets the source uses. -/
def pyTitle (s : String) : String := String.mk (pyTitleGo false s.toList)

/-! ## Provider availability and network oracle

The constructor of FreeSearchAISystem reads one environment variable per
provider; a missing credential makes every use of that provider impossible
(the code guards each call with if self.key).  Env records which credentials
are configured.  The oracle supplies the value a successful network call
would return; it is consulted only behind the corresponding Env flag. -/

structure Env where
  pexels : Bool
  unsplash : Bool
  pixabay : Bool
  groq : Bool
  hf : Bool
deriving Repr, DecidableEq

/-- The environment with no credentials configured: every provider reports
unavailable. -/
def envNone : Env := ⟨false, false, false, false, false⟩

/-! ## Data model of the free system (free_search_ai_system.py) -/

/-- Result of product analysis (the dict returned by _mock_analysis_free and
_groq_analysis_free).  The source stores the price estimate as the text
"R$ low - R$ high"; the embedding keeps the two numbers. -/
structure AnaliseFree where
  produto_identificado : String
  tipo_produto : String
  marca : String
  categoria_uso : String
  caracteristicas_principais : List String
  publico_alvo_sugerido : String
  preco_low : Int
  preco_high : Int
  pontos_de_venda : List String
  estrategia_recomendada : String
  contexto_uso : String
deriving Repr, DecidableEq

/-- One advertising copy (the dicts built by _mock_copies_free and
_groq_copies_free). -/
structure CopyFree where
  id : Nat
  titulo : String
  texto : String
  estrategia : String
  tipo_campanha : String
  confidence : ℚ
  generated_by : String
deriving Repr

/-- One image-search reference (the dicts built by the Pexels, Unsplash and
Pixabay search helpers). -/
structure Ref where
  url : String
  thumbnail : String
  title : String
  width : Int
  height : Int
  source : String
  photographer : String
  search_term : String
  free_license : Bool
  relevance_score : Int
deriving Repr, DecidableEq

/-- One search strategy (the dicts built by _create_smart_fallback_strategies
and by the Groq strategy generator). -/
structure SearchStrategy where
  name : String
  description : String
  search_terms : List String
deriving Repr, DecidableEq

/-- One image prompt (the dicts built by _create_smart_prompts_free and by the
Groq prompt generator). -/
structure PromptData where
  id : Nat
  strategy : String
  prompt : String
  style : String
  reference_based : Bool
deriving Repr, DecidableEq

/-- One generated image (the dicts built by _create_reference_based_mock and
_generate_with_huggingface_free). -/
structure ImagemFree where
  id : Nat
  url : String
  style : String
  strategy : String
  description : String
  generated_by : String
  confidence : ℚ
  quality : String
  reference_count : Nat
  sources_analyzed : List String
  note : String
deriving Repr

/-- Values returned by successful network calls, consulted only when the
matching Env flag is set.  Modelling the network responses as unconstrained
oracle data is sound for the claims below, which all concern configurations
in which the relevant flags are false. -/
structure Oracle where
  groqAnalysis : String → Option AnaliseFree
  groqCopies : AnaliseFree → Nat → List CopyFree
  groqStrategies : AnaliseFree → Option (List SearchStrategy)
  groqPrompts : AnaliseFree → Option (List PromptData)
  hfImage : PromptData → List Ref → Nat → Option ImagemFree
  pexelsFree : String → List Ref
  pexelsUni : String → List Ref
  unsplashUni : String → List Ref
  pixabayUni : String → List Ref

/-- A trivial oracle used to instantiate closed statements. -/
def noOracle : Oracle :=
  { groqAnalysis := fun _ => none
    groqCopies := fun _ _ => []
    groqStrategies := fun _ => none
    groqPrompts := fun _ => none
    hfImage := fun _ _ _ => none
    pexelsFree := fun _ => []
    pexelsUni := fun _ => []
    unsplashUni := fun _ => []
    pixabayUni := fun _ => [] }

/-! ## _mock_analysis_free (free_search_ai_system.py lines 407-503) -/

/-- Keyword table: pets. -/
def petsKw : List String :=
  ["peixe palhaço", "peixe", "goldfish", "betta", "guppy", "neon tetra",
   "cachorro", "cão", "golden", "labrador", "poodle", "shih tzu",
   "gato", "persa", "siamês", "maine coon",
   "hamster", "chinchila", "coelho", "ferret",
   "papagaio", "canário", "calopsita", "agapornis",
   "tartaruga", "iguana", "gecko"]

/-- Keyword table: plants. -/
def plantasKw : List String :=
  ["suculenta", "cacto", "samambaia", "violeta", "orquídea",
   "rosa", "girassol", "lavanda", "manjericão", "alecrim",
   "palmeira", "ficus", "monstera", "costela de adão"]

/-- Keyword table: technology. -/
def techKw : List String :=
  ["iphone", "smartphone", "celular", "tablet", "notebook", "laptop",
   "smartwatch", "fone", "headphone", "mouse", "teclado",
   "monitor", "tv", "smart tv", "chromecast"]

/-- Keyword table: services. -/
def servicosKw : List String :=
  ["consulta", "aula", "curso", "treinamento", "coaching",
   "manutenção", "reparo", "instalação", "limpeza",
   "design", "fotografia", "marketing"]

/-- The branch-dependent part of _mock_analysis_free: the local variables the
Python function assigns in its if/elif chain. -/
structure FreeCtx where
  tipo : String
  catUso : String
  estrategia : String
  publico : String
  contexto : String
  pontos : List String
  precoLow : Int
  precoHigh : Int
deriving Repr, DecidableEq

/-- Context-detection chain of _mock_analysis_free over the lowered prompt. -/
def freeBranch (pl : String) : FreeCtx :=
  if containsAny pl petsKw then
    { tipo := "pet_animal_estimacao", catUso := "pet", estrategia := "premium",
      publico := "Famílias com pets, aquaristas, amantes de animais",
      contexto := "cuidado e bem-estar de animal de estimação",
      pontos := ["Bem-estar do pet", "Alegria para família", "Cuidado responsável"],
      precoLow := 50, precoHigh := 300 }
  else if containsAny pl plantasKw then
    { tipo := "planta_decoracao", catUso := "decoracao", estrategia := "premium",
      publico := "Entusiastas de jardinagem, decoradores, pessoas que gostam de plantas",
      contexto := "decoração e purificação do ambiente",
      pontos := ["Ambiente mais bonito", "Ar purificado", "Bem-estar"],
      precoLow := 15, precoHigh := 150 }
  else if containsAny pl techKw then
    { tipo := "tecnologia",
      catUso := if containsAny pl ["pro", "profissional", "trabalho"] then "profissional"
                else "pessoal",
      estrategia := if strContains pl "iphone" then "premium" else "custo_beneficio",
      publico := "Usuários de tecnologia, profissionais, estudantes",
      contexto := "produtividade e comunicação digital",
      pontos := ["Tecnologia avançada", "Produtividade", "Conectividade"],
      precoLow := 500, precoHigh := 5000 }
  else if containsAny pl servicosKw then
    { tipo := "servico", catUso := "profissional", estrategia := "profissional",
      publico := "Pessoas buscando soluções profissionais",
      contexto := "solução de problemas ou aprendizado",
      pontos := ["Expertise profissional", "Resultados garantidos", "Conveniência"],
      precoLow := 100, precoHigh := 500 }
  else
    { tipo := "produto", catUso := "geral", estrategia := "comercial",
      publico := "Consumidores brasileiros",
      contexto := "uso cotidiano",
      pontos := ["Qualidade garantida", "Bom custo-benefício", "Entrega rápida"],
      precoLow := 50, precoHigh := 500 }

/-- _mock_analysis_free: the network-free analyzer of FreeSearchAISystem. -/
def mockAnalysisFree (p : String) : AnaliseFree :=
  let pl := pyLower p
  let c := freeBranch pl
  { produto_identificado := p
    tipo_produto := c.tipo
    marca := "Premium"
    categoria_uso := c.catUso
    caracteristicas_principais := ["Qualidade superior", "Design atrativo", "Durabilidade"]
    publico_alvo_sugerido := c.publico
    preco_low := c.precoLow
    preco_high := c.precoHigh
    pontos_de_venda := c.pontos
    estrategia_recomendada := c.estrategia
    contexto_uso := c.contexto }

/-- analyze_with_openai of FreeSearchAISystem: Groq when configured and
successful, otherwise the mock analyzer. -/
def analyzeWithOpenAIFree (env : Env) (o : Oracle) (p : String) : AnaliseFree :=
  if env.groq then
    match o.groqAnalysis p with
    | some a => a
    | none => mockAnalysisFree p
  else mockAnalysisFree p

/-! ## _mock_copies_free and generate_copies_with_openai -/

/-- _mock_copies_free: a fixed three-element list sliced to num_copies. -/
def mockCopiesFree (pd : AnaliseFree) (numCopies : Nat) : List CopyFree :=
  let produto := pd.produto_identificado
  ([{ id := 1, titulo := "Copy Comercial",
      texto := "📱 " ++ produto ++ " - Oportunidade imperdível!",
      estrategia := "COMERCIAL", tipo_campanha := "commercial",
      confidence := 4/5, generated_by := "mock_fallback" },
    { id := 2, titulo := "Copy Urgência",
      texto := "🔥 " ++ produto ++ " - Últimas unidades disponíveis!",
      estrategia := "URGÊNCIA", tipo_campanha := "conversion",
      confidence := 4/5, generated_by := "mock_fallback" },
    { id := 3, titulo := "Copy Premium",
      texto := "✨ " ++ produto ++ " - Qualidade premium garantida!",
      estrategia := "PREMIUM", tipo_campanha := "branding",
      confidence := 4/5, generated_by := "mock_fallback" }] : List CopyFree).take numCopies

/-- generate_copies_with_openai of FreeSearchAISystem: the Groq result is kept
only when it is nonempty and contains at least one copy tagged groq_real;
otherwise the mock list. -/
def generateCopiesWithOpenAIFree (env : Env) (o : Oracle) (pd : AnaliseFree)
    (numCopies : Nat) : List CopyFree :=
  if env.groq then
    let cs := o.groqCopies pd numCopies
    if cs.length > 0 && cs.any (fun c => c.generated_by == "groq_real") then cs
    else mockCopiesFree pd numCopies
  else mockCopiesFree pd numCopies

/-- One strategy entry of the all_strategies table in _get_copy_strategies.
The source key type is stored in the field ty. -/
structure StrategyF where
  name : String
  desc : String
  ty : String
deriving Repr, DecidableEq

/-- Lookup in the all_strategies dict of _get_copy_strategies (the selected
keys are always present in the table). -/
def copyStrategyFree (n : String) : StrategyF :=
  if n == "URGÊNCIA" then
    { name := "URGÊNCIA", desc := "Criar senso de urgência e escassez", ty := "conversion" }
  else if n == "PREMIUM" then
    { name := "PREMIUM", desc := "Destacar exclusividade e qualidade superior", ty := "branding" }
  else if n == "CUSTO_BENEFÍCIO" then
    { name := "CUSTO_BENEFÍCIO", desc := "Enfatizar valor e economia", ty := "value" }
  else if n == "PROFISSIONAL" then
    { name := "PROFISSIONAL", desc := "Focar em produtividade e performance", ty := "professional" }
  else
    { name := "COMERCIAL", desc := "Apresentação comercial direta", ty := "commercial" }

/-- _get_copy_strategies of FreeSearchAISystem (free_search_ai_system.py lines
339-380): copy strategies keyed only on estrategia_recomendada. -/
def getCopyStrategies (estrategiaRecomendada : String) (numCopies : Nat) : List StrategyF :=
  let selected :=
    if estrategiaRecomendada == "urgencia" then ["URGÊNCIA", "CUSTO_BENEFÍCIO", "COMERCIAL"]
    else if estrategiaRecomendada == "premium" then ["PREMIUM", "PROFISSIONAL", "COMERCIAL"]
    else if estrategiaRecomendada == "profissional" then ["PROFISSIONAL", "PREMIUM", "COMERCIAL"]
    else ["COMERCIAL", "CUSTO_BENEFÍCIO", "URGÊNCIA"]
  (selected.take numCopies).map copyStrategyFree

/-! ## TrulyUniversalSearch (truly_universal_search.py) -/

/-- Stop words of _extract_universal_keywords. -/
def stopWordsUni : List String :=
  ["novo", "usado", "seminovo", "original", "nacional", "importado",
   "profissional", "premium", "básico", "simples", "completo",
   "com", "sem", "para", "de", "da", "do", "em", "na", "no",
   "gb", "mb", "kg", "cm", "mm", "polegadas", "unidade", "peça"]

/-- Punctuation set stripped from each word in _extract_universal_keywords. -/
def punctSet : List Char := ['.', ',', '!', '?', '(', ')', '[', ']', '\x7b', '\x7d']

/-- Python str.isdigit restricted to ASCII digits (the inputs are product
descriptions; only ASCII digits occur). -/
def pyIsDigitAll (w : String) : Bool :=
  w.length > 0 && w.toList.all (·.isDigit)

/-- Python str.isalpha on the alphabets the source uses. -/
def pyIsAlphaAll (w : String) : Bool :=
  w.length > 0 && w.toList.all isAlphaPy

/-- _extract_universal_keywords: keyword extraction from a product name. -/
def extractUniversalKeywords (produto : String) : List String :=
  if produto == "" then []
  else
    let produtoClean := pyLower produto
    let words := pySplit (mapCharsToSpace ['-', '/'] produtoClean)
    let keywords := words.filterMap (fun w =>
      let w := pyStripChars punctSet w
      if w.length ≥ 3 && !(stopWordsUni.contains w) && !(pyIsDigitAll w) && pyIsAlphaAll w
      then some w else none)
    keywords.take 5

/-- _guess_usage_context: usage-context search terms, capped at two. -/
def guessUsageContext (produto tipoProduto : String) : List String :=
  let pl := pyLower produto
  let contexts :=
    if containsAny pl ["phone", "celular", "smartphone", "iphone"] then
      ["phone in hand", "smartphone unboxing"]
    else if containsAny pl ["laptop", "notebook", "computer"] then
      ["person using laptop", "laptop on desk"]
    else if containsAny pl ["food", "comida", "pão", "pizza", "hambúrguer"] then
      ["food photography", "food on plate"]
    else if containsAny pl ["car", "carro", "auto", "vehicle"] then
      ["car photography", "vehicle exterior"]
    else if containsAny pl ["service", "consulta", "aula", "curso"] then
      ["professional service", "business meeting"]
    else if tipoProduto == "ferramenta" || tipoProduto == "tool" || tipoProduto == "equipment" then
      ["tool in use", "workshop equipment"]
    else
      [tipoProduto ++ " lifestyle", tipoProduto ++ " in environment",
       "person with " ++ tipoProduto]
  contexts.take 2

/-- _create_smart_fallback_strategies.  The direct strategy indexes
produto.split()[0] when no keyword survives and produto is nonempty; on a
whitespace-only produto that indexing raises IndexError in Python, modelled
here by the none result. -/
def createSmartFallbackStrategiesE (pd : AnaliseFree) : Option (List SearchStrategy) :=
  let produto := pd.produto_identificado
  let tipoProduto := pd.tipo_produto
  let marca := pd.marca
  let productKeywords := extractUniversalKeywords produto
  let usoTerms :=
    (if tipoProduto ≠ "" then [tipoProduto ++ " in use", "using " ++ tipoProduto] else [])
      ++ guessUsageContext produto tipoProduto
  let commercialTerms :=
    (if marca ≠ "" && marca ≠ "Premium" then [marca ++ " " ++ tipoProduto] else [])
      ++ [tipoProduto ++ " product photography", tipoProduto ++ " marketing photo",
          "commercial " ++ tipoProduto]
  let professionalTerms :=
    ["professional " ++ tipoProduto ++ " photography", tipoProduto ++ " studio photo",
     "high quality " ++ tipoProduto]
  let directTerms? : Option (List String) :=
    if productKeywords ≠ [] then some (productKeywords.take 3)
    else if produto ≠ "" then (pySplit produto).head?.map (fun w => [tipoProduto, w])
    else some [tipoProduto, "product"]
  match directTerms? with
  | none => none
  | some directTerms =>
    some [{ name := "uso_context", description := "contexto de uso",
            search_terms := usoTerms.take 3 },
          { name := "commercial", description := "contexto comercial",
            search_terms := commercialTerms.take 3 },
          { name := "professional", description := "fotografia profissional",
            search_terms := professionalTerms },
          { name := "direct", description := "busca direta", search_terms := directTerms }]

/-- _ai_create_search_strategies: Groq strategies when configured and
successful and nonempty, otherwise the smart fallback (whose possible
IndexError propagates). -/
def aiCreateSearchStrategiesE (env : Env) (o : Oracle) (pd : AnaliseFree) :
    Option (List SearchStrategy) :=
  if env.groq then
    match o.groqStrategies pd with
    | some l => if l.length > 0 then some l else createSmartFallbackStrategiesE pd
    | none => createSmartFallbackStrategiesE pd
  else createSmartFallbackStrategiesE pd

/-- Inner loop of _execute_universal_search: walk the (at most two) search
terms, querying each configured API, stopping once 20 references accumulate. -/
def execSearchGo (env : Env) (o : Oracle) : List String → List Ref → List Ref
  | [], acc => acc
  | t :: ts, acc =>
    if t == "" || (pyStrip t).length < 2 then execSearchGo env o ts acc
    else
      let acc := acc ++ (if env.pexels then o.pexelsUni t else [])
      let acc := acc ++ (if env.unsplash then o.unsplashUni t else [])
      let acc := acc ++ (if env.pixabay then o.pixabayUni t else [])
      if acc.length ≥ 20 then acc else execSearchGo env o ts acc

/-- _execute_universal_search. -/
def executeUniversalSearch (env : Env) (o : Oracle) (s : SearchStrategy) : List Ref :=
  execSearchGo env o (s.search_terms.take 2) []

/-- _universal_relevance_filter: per-reference relevance scoring, minimum
score 1, stable descending sort.  Keyword scoring uses the lowered product
fields exactly as the Python locals do. -/
def relevanceKeywords (pd : AnaliseFree) : List String :=
  let produto := pyLower pd.produto_identificado
  let tipoProduto := pyLower pd.tipo_produto
  let marca := pyLower pd.marca
  (if produto ≠ "" then (pySplit produto).take 3 else [])
    ++ (if tipoProduto ≠ "" then [tipoProduto] else [])
    ++ (if marca ≠ "" && marca ≠ "premium" then [marca] else [])

/-- The updated relevance score of one reference in
_universal_relevance_filter. -/
def refRelevance (kws : List String) (r : Ref) : Int :=
  let title := pyLower r.title
  let searchTerm := pyLower r.search_term
  let base := r.relevance_score
  let kwPts := (kws.map (fun kw =>
    (if strContains title kw then (2 : Int) else 0)
      + (if strContains searchTerm kw then 1 else 0))).sum
  let resPts : Int := if r.width ≥ 500 then 1 else 0
  let srcPts : Int := if r.source == "pexels" || r.source == "unsplash" then 1 else 0
  base + kwPts + resPts + srcPts

/-- Stable insertion into a list sorted descending by key: the new element
goes after every element with a key at least as large. -/
def insertDesc (k : Ref → Int) (x : Ref) : List Ref → List Ref
  | [] => [x]
  | y :: ys => if k y < k x then x :: y :: ys else y :: insertDesc k x ys

/-- Stable descending sort by key (the behavior of Python list.sort with
reverse=True). -/
def sortDescBy (k : Ref → Int) (l : List Ref) : List Ref :=
  l.foldl (fun acc x => insertDesc k x acc) []

/-- _universal_relevance_filter. -/
def universalRelevanceFilter (refs : List Ref) (pd : AnaliseFree) : List Ref :=
  let kws := relevanceKeywords pd
  let filtered := refs.filterMap (fun r =>
    let score := refRelevance kws r
    if score ≥ 1 then some { r with relevance_score := score } else none)
  sortDescBy (fun r => r.relevance_score) filtered

/-- URL deduplication of _universal_ranking: keep the first reference of each
nonempty url. -/
def dedupeByUrl : List Ref → List String → List Ref
  | [], _ => []
  | r :: rs, seen =>
    if r.url ≠ "" && !(seen.contains r.url) then r :: dedupeByUrl rs (r.url :: seen)
    else dedupeByUrl rs seen

/-- comprehensive_score of _universal_ranking. -/
def comprehensiveScore (r : Ref) : Int :=
  r.relevance_score
    + (if r.width ≥ 800 then 2 else if r.width ≥ 500 then 1 else 0)
    + (if r.source == "unsplash" then 2 else if r.source == "pexels" then 1 else 0)

/-- _universal_ranking (truly_universal_search.py lines 537-578): dedupe by
url, sort by comprehensive score descending, return at most 8 references.
The product_data parameter is accepted and unused, as in the source. -/
def universalRanking (refs : List Ref) (_pd : AnaliseFree) : List Ref :=
  match refs with
  | [] => []
  | _ :: _ => (sortDescBy comprehensiveScore (dedupeByUrl refs [])).take 8

/-- Strategy loop of search_any_product: filter and accumulate per strategy,
stopping once 12 references accumulate. -/
def collectRefs (env : Env) (o : Oracle) (pd : AnaliseFree) :
    List SearchStrategy → List Ref → List Ref
  | [], acc => acc
  | s :: ss, acc =>
    let acc := acc ++ universalRelevanceFilter (executeUniversalSearch env o s) pd
    if acc.length ≥ 12 then acc else collectRefs env o pd ss acc

/-- search_any_product of TrulyUniversalSearch; none models a raised
exception (the IndexError of the fallback strategies). -/
def searchAnyProductE (env : Env) (o : Oracle) (pd : AnaliseFree) : Option (List Ref) :=
  match aiCreateSearchStrategiesE env o pd with
  | none => none
  | some strategies => some (universalRanking (collectRefs env o pd (strategies.take 3) []) pd)

/-! ## Free-system search wrappers (free_search_ai_system.py lines 544-615) -/

/-- Noise terms of _clean_product_for_search. -/
def noiseTerms : List String :=
  ["novo", "usado", "seminovo", "original", "nacional",
   "gb", "mb", "tb", "256gb", "512gb", "1tb",
   "polegadas", "\"", "cm", "mm", "kg", "gramas"]

/-- _clean_product_for_search. -/
def cleanProductForSearch (produto : String) : String :=
  let clean := noiseTerms.foldl (fun s term => pyReplace s term " ") (pyLower produto)
  let clean := String.intercalate " " (pySplit clean)
  let words := (pySplit clean).take 3
  if words ≠ [] then String.intercalate " " words else produto

/-- Query loop of _search_basic_fallback: try each of the first two queries on
Pexels when configured, stopping once 5 references accumulate. -/
def basicGo (env : Env) (o : Oracle) : List String → List Ref → List Ref
  | [], acc => acc
  | q :: qs, acc =>
    let acc := acc ++ (if env.pexels then o.pexelsFree q else [])
    if acc.length ≥ 5 then acc else basicGo env o qs acc

/-- _search_basic_fallback. -/
def searchBasicFallback (env : Env) (o : Oracle) (pd : AnaliseFree) : List Ref :=
  let produto := pd.produto_identificado
  let tipoProduto := pd.tipo_produto
  let queries :=
    (if produto ≠ "" then [cleanProductForSearch produto] else [])
      ++ (if tipoProduto ≠ "" then [tipoProduto ++ " photography"] else [])
      ++ ["product photography"]
  (basicGo env o (queries.take 2) []).take 5

/-- _search_free_product_images: the universal search result when it is
nonempty; the basic fallback when it is empty or the universal system raised. -/
def searchFreeProductImages (env : Env) (o : Oracle) (pd : AnaliseFree) : List Ref :=
  match searchAnyProductE env o pd with
  | some refs => if refs ≠ [] then refs else searchBasicFallback env o pd
  | none => searchBasicFallback env o pd

/-! ## Reference analysis (free_search_ai_system.py lines 617-752) -/

/-- Result of _analyze_free_references.  average_relevance is kept as an exact
rational; set-derived lists use first-occurrence order (only membership is
consumed). -/
structure RefAnalysis where
  product_name : String
  reference_count : Nat
  sources_analyzed : List String
  search_terms_used : List String
  average_relevance : ℚ
  visual_style : String
  typical_composition : String
  common_background : String
  lighting_pattern : String
  quality_indicators : List String
  analysis_quality : String
  sample_references : List String
deriving Repr

/-- _detect_universal_visual_style. -/
def detectUniversalVisualStyle (text : String) : String :=
  if containsAny text ["professional", "studio", "commercial"] then
    "professional commercial style"
  else if containsAny text ["lifestyle", "natural", "candid"] then
    "lifestyle natural style"
  else if containsAny text ["artistic", "creative", "abstract"] then
    "artistic creative style"
  else if containsAny text ["minimal", "clean", "simple"] then
    "minimalist clean style"
  else "standard photography style"

/-- Orientation counters of _detect_universal_composition: (landscape,
portrait, square).  The width/height ratio is computed as an exact rational
(Python uses binary64; the 1.3 and 0.8 thresholds are compared to the same
quotients, and no claim depends on ratios at the representation boundary). -/
def orientationCounts (refs : List Ref) : Nat × Nat × Nat :=
  refs.foldl (fun acc r =>
    let ratio : ℚ := if r.height > 0 then (r.width : ℚ) / (r.height : ℚ) else 1
    if ratio > 13/10 then (acc.1 + 1, acc.2.1, acc.2.2)
    else if ratio < 4/5 then (acc.1, acc.2.1 + 1, acc.2.2)
    else (acc.1, acc.2.1, acc.2.2 + 1)) (0, 0, 0)

/-- _detect_universal_composition. -/
def detectUniversalComposition (refs : List Ref) : String :=
  let c := orientationCounts refs
  let total := refs.length
  if total == 0 then "balanced composition"
  else if (c.1 : ℚ) / (total : ℚ) > 3/5 then "landscape orientation preferred"
  else if (c.2.1 : ℚ) / (total : ℚ) > 3/5 then "portrait orientation common"
  else "mixed orientation styles"

/-- _detect_universal_background. -/
def detectUniversalBackground (text : String) : String :=
  if containsAny text ["white", "clean", "minimal"] then "clean light background"
  else if containsAny text ["dark", "black", "dramatic"] then "dark dramatic background"
  else if containsAny text ["natural", "outdoor", "environment"] then
    "natural environment background"
  else if containsAny text ["lifestyle", "home", "room"] then "lifestyle context background"
  else "varied background styles"

/-- _detect_universal_lighting. -/
def detectUniversalLighting (text : String) : String :=
  if containsAny text ["studio", "professional"] then "professional studio lighting"
  else if containsAny text ["natural", "sunlight", "daylight"] then "natural daylight preferred"
  else if containsAny text ["dramatic", "moody", "shadow"] then "dramatic moody lighting"
  else if containsAny text ["soft", "gentle", "warm"] then "soft warm lighting"
  else "standard lighting setup"

/-- Sum of the relevance scores of a reference list. -/
def relevanceSum (refs : List Ref) : Int := (refs.map (·.relevance_score)).sum

/-- _assess_universal_quality. -/
def assessUniversalQuality (refs : List Ref) : List String :=
  if refs.isEmpty then ["no references available"]
  else
    let highResCount := (refs.filter (fun r => r.width > 800)).length
    let part1 := if highResCount > 0 then
        [toString highResCount ++ "/" ++ toString refs.length ++ " high resolution"]
      else []
    let sources := dedupFirst (refs.map (·.source))
    let part2 := if sources.length > 1 then
        ["diverse sources: " ++ String.intercalate ", " sources]
      else []
    let avgRelevance : ℚ := (relevanceSum refs : ℚ) / (refs.length : ℚ)
    let part3 := if avgRelevance ≥ 2 then ["high relevance matches"]
      else if avgRelevance ≥ 1 then ["moderate relevance matches"]
      else ["basic relevance matches"]
    let freeLicenseCount := (refs.filter (·.free_license)).length
    let part4 := if freeLicenseCount == refs.length then ["all free licensed"] else []
    part1 ++ part2 ++ part3 ++ part4

/-- _create_universal_fallback_analysis. -/
def createUniversalFallbackAnalysis (pd : AnaliseFree) : RefAnalysis :=
  { product_name := pd.produto_identificado
    reference_count := 0
    sources_analyzed := []
    search_terms_used := []
    average_relevance := 0
    visual_style := "standard commercial photography"
    typical_composition := "centered product placement"
    common_background := "neutral background"
    lighting_pattern := "professional lighting"
    quality_indicators := ["no references - using intelligent defaults"]
    analysis_quality := "universal_fallback"
    sample_references := [] }

/-- _analyze_free_references. -/
def analyzeFreeReferences (refs : List Ref) (pd : AnaliseFree) : RefAnalysis :=
  if refs.isEmpty then createUniversalFallbackAnalysis pd
  else
    let allTitles := refs.map (·.title)
    let allSearchTerms := refs.map (·.search_term)
    let combinedText := pyLower (String.intercalate " " (allTitles ++ allSearchTerms))
    { product_name := pd.produto_identificado
      reference_count := refs.length
      sources_analyzed := dedupFirst (refs.map (·.source))
      search_terms_used := dedupFirst (refs.map (·.search_term))
      average_relevance := (relevanceSum refs : ℚ) / (refs.length : ℚ)
      visual_style := detectUniversalVisualStyle combinedText
      typical_composition := detectUniversalComposition refs
      common_background := detectUniversalBackground combinedText
      lighting_pattern := detectUniversalLighting combinedText
      quality_indicators := assessUniversalQuality refs
      analysis_quality := "universal_intelligent"
      sample_references := (refs.take 3).map (·.thumbnail) }

/-! ## Smart prompts and the reference-based image mock -/

/-- One iteration of the _create_smart_prompts_free loop. -/
def smartPromptFor (analysis : RefAnalysis) (pd : AnaliseFree) (copies : List CopyFree)
    (i : Nat) : PromptData :=
  let produto := pd.produto_identificado
  let visualStyle := analysis.visual_style
  let background := analysis.common_background
  let lighting := analysis.lighting_pattern
  let strategy :=
    if i < copies.length then
      ((copies.getD i { id := 0, titulo := "", texto := "", estrategia := "",
                        tipo_campanha := "", confidence := 0, generated_by := "" }).estrategia)
    else "COMERCIAL"
  let basePrompt := "professional photography of " ++ produto ++ ", " ++ visualStyle
    ++ ", " ++ background ++ ", " ++ lighting
  let ps :=
    if strategy == "URGÊNCIA" then
      (basePrompt ++ ", dynamic composition, vibrant energy", "Dynamic Energy")
    else if strategy == "PREMIUM" then
      (basePrompt ++ ", luxury aesthetic, sophisticated composition", "Premium Luxury")
    else if strategy == "PROFISSIONAL" then
      (basePrompt ++ ", modern tech environment, professional setup", "Professional Tech")
    else
      (basePrompt ++ ", commercial quality, marketing ready", "Commercial Standard")
  { id := i + 1, strategy := strategy, prompt := ps.1, style := ps.2,
    reference_based := true }

/-- _create_smart_prompts_free. -/
def createSmartPromptsFree (analysis : RefAnalysis) (pd : AnaliseFree)
    (copies : List CopyFree) (numImages : Nat) : List PromptData :=
  (List.range numImages).map (smartPromptFor analysis pd copies)

/-- _create_reference_based_mock (free_search_ai_system.py lines 967-1011).
The source checks whether pexels or unsplash occurs in str(sources); since
neither word can span the list separators, that equals an occurrence inside
some element.  The confidence is the literal 0.80 + ref_count * 0.03 of the
source (exact in binary64 up to well below the comparison granularity used
anywhere). -/
def createReferenceBasedMock (pd : AnaliseFree) (promptData : PromptData)
    (refs : List Ref) (imageId : Nat) : ImagemFree :=
  let produto := pd.produto_identificado
  let strategy := promptData.strategy
  let refCount := refs.length
  let colors :=
    if refCount > 0 then
      let sources := refs.map (·.source)
      if sources.any (fun s => strContains s "pexels") then ("e8f4fd", "2c3e50")
      else if sources.any (fun s => strContains s "unsplash") then ("f8f9fa", "495057")
      else ("ffffff", "333333")
    else
      if strategy == "URGÊNCIA" then ("ff4444", "ffffff")
      else if strategy == "PREMIUM" then ("1a1a1a", "f5f5f5")
      else if strategy == "PROFISSIONAL" then ("6f42c1", "ffffff")
      else if strategy == "COMERCIAL" then ("2c3e50", "ffffff")
      else ("f8f9fa", "2c3e50")
  let productClean := String.mk (produto.toList.map (fun c => if c == ' ' then '+' else c))
  let textOverlay := productClean ++ "+FREE+" ++ toString refCount ++ "REF"
  { id := imageId
    url := "https://via.placeholder.com/1024x1024/" ++ colors.1 ++ "/" ++ colors.2
      ++ "?text=" ++ textOverlay ++ "&font-size=24"
    style := "Free Reference-based " ++ strategy
    strategy := strategy
    description := "Mock gratuito baseado em " ++ toString refCount ++ " referências reais"
    generated_by := "free_reference_mock"
    confidence := 4/5 + (refCount : ℚ) * (3/100)
    quality := "free_reference_informed"
    reference_count := refCount
    sources_analyzed := dedupFirst (refs.map (·.source))
    note := "Sistema 100% gratuito - baseado em " ++ toString refCount ++ " referências reais" }

/-- Per-prompt image loop of generate_images_with_free_search, carrying the
running index of enumerate. -/
def buildImagesFree (env : Env) (o : Oracle) (pd : AnaliseFree) (refs : List Ref) :
    Nat → List PromptData → List ImagemFree
  | _, [] => []
  | i, promptData :: rest =>
    (match (if env.hf then o.hfImage promptData refs (i + 1) else none) with
     | some img => img
     | none => createReferenceBasedMock pd promptData refs (i + 1))
      :: buildImagesFree env o pd refs (i + 1) rest

/-- generate_images_with_free_search (free_search_ai_system.py lines 86-121):
search references, analyze them, build one prompt per requested image (Groq
when configured, smart prompts otherwise), then generate each image via
HuggingFace when configured, falling back to the reference-based mock. -/
def generateImagesWithFreeSearch (env : Env) (o : Oracle) (pd : AnaliseFree)
    (copies : List CopyFree) (numImages : Nat) : List ImagemFree :=
  let refs := searchFreeProductImages env o pd
  let analysis := analyzeFreeReferences refs pd
  let promptList :=
    if env.groq then
      match o.groqPrompts pd with
      | some ps => ps
      | none => createSmartPromptsFree analysis pd copies numImages
    else createSmartPromptsFree analysis pd copies numImages
  buildImagesFree env o pd refs 0 promptList

/-! ## create_free_campaign and the free endpoint (app/main.py) -/

/-- The campaign record assembled by create_free_campaign, flattened. -/
structure Campaign where
  nome_campanha : String
  objetivo : String
  orcamento_diario : Nat
  orcamento_duracao : String
  orcamento_total : Nat
  custo_geracao : String
  seg_produto : String
  seg_tipo : String
  seg_publico : String
  seg_estrategia : String
  copies_disponiveis : Nat
  imagens_disponiveis : Nat
  referencias_reais_encontradas : Nat
  qualidade : String
  ctr : String
  conversao : String
  cpm : String
  diferenciais : List String
  status : String
  sistema_usado : String
deriving Repr

/-- budget_map.get(tipo_produto, 150) of create_free_campaign. -/
def budgetFor (tipoProduto : String) : Nat :=
  if tipoProduto == "smartphone" then 200
  else if tipoProduto == "notebook" then 250
  else if tipoProduto == "alimento" then 100
  else if tipoProduto == "servico" then 150
  else if tipoProduto == "produto" then 150
  else 150

/-- create_free_campaign (app/main.py lines 457-511).  The campaign name
indexes produto.split()[0]; on a whitespace-only product name that indexing
raises IndexError in Python, modelled by the none result. -/
def createFreeCampaign (analysis : AnaliseFree) (copies : List CopyFree)
    (images : List ImagemFree) : Option Campaign :=
  let produto := analysis.produto_identificado
  let tipoProduto := analysis.tipo_produto
  let budgetDaily := budgetFor tipoProduto
  let totalReferences := (images.map (·.reference_count)).sum
  match (pySplit produto).head? with
  | none => none
  | some firstWord =>
    some { nome_campanha := "Campanha " ++ firstWord ++ " - Busca Real"
           objetivo := "CONVERSIONS"
           orcamento_diario := budgetDaily
           orcamento_duracao := "7 dias"
           orcamento_total := budgetDaily * 7
           custo_geracao := "$0.00"
           seg_produto := produto
           seg_tipo := tipoProduto
           seg_publico := analysis.publico_alvo_sugerido
           seg_estrategia := analysis.estrategia_recomendada
           copies_disponiveis := copies.length
           imagens_disponiveis := images.length
           referencias_reais_encontradas := totalReferences
           qualidade := if totalReferences > 0 then "desenvolvimento" else "mock"
           ctr := "2.8% - 4.2%"
           conversao := "30-80 leads"
           cpm := "R$ 12 - 20"
           diferenciais :=
             ["Baseado em produtos reais encontrados na internet",
              "Sistema universal (funciona para qualquer produto)",
              "Custo zero para desenvolvimento",
              "Análise de " ++ toString totalReferences ++ " referências reais"]
           status := "pronta_para_lancamento"
           sistema_usado := "free_search_ai_v2.3" }

/-- generation_stats of the free endpoint (the corrected counting of the
second generate_free_campaign definition in app/main.py). -/
structure GenStats where
  real_analysis : Bool
  real_copies : Nat
  mock_copies : Nat
  real_images : Nat
  mock_images : Nat
  total_references_found : Nat
deriving Repr, DecidableEq

/-- The JSON body returned by the free endpoint on success. -/
structure FreeResponse where
  success : Bool
  version : String
  system : String
  cost : String
  stats : GenStats
  prompt_original : String
  analise_produto : AnaliseFree
  copies_geradas : List CopyFree
  imagens_geradas : List ImagemFree
  campanha_completa : Campaign
deriving Repr

/-- An HTTPException: status code and detail.  For the 500 branch the source
appends str(e) to the detail; the embedding keeps the fixed prefix. -/
structure HttpError where
  code : Nat
  detail : String
deriving Repr, DecidableEq

/-- generate_free_campaign (app/main.py lines 293-395, the second definition
of the route, which overrides the first).  The active main_system is the
FreeSearchAISystem instance, so every hasattr test succeeds; an empty prompt
is rejected with status 400 before any stage runs, and an exception escaping
a stage is converted to status 500. -/
def generateFreeCampaign (env : Env) (o : Oracle) (prompt : String) :
    Except HttpError FreeResponse :=
  if prompt == "" then .error ⟨400, "Prompt é obrigatório"⟩
  else
    let analysis := analyzeWithOpenAIFree env o prompt
    let copies := generateCopiesWithOpenAIFree env o analysis 3
    let images := generateImagesWithFreeSearch env o analysis copies 3
    match createFreeCampaign analysis copies images with
    | none => .error ⟨500, "Erro no processamento gratuito"⟩
    | some campaign =>
      let realImages := (images.filter (fun i => i.generated_by == "huggingface_free")).length
      let realCopies := (copies.filter (fun c => c.generated_by == "groq_real")).length
      .ok { success := true
            version := "2.3.0"
            system := "FREE_SEARCH_AI"
            cost := "$0.00"
            stats := { real_analysis := analysis.produto_identificado != prompt
                       real_copies := realCopies
                       mock_copies := copies.length - realCopies
                       real_images := realImages
                       mock_images := images.length - realImages
                       total_references_found := (images.map (·.reference_count)).sum }
            prompt_original := prompt
            analise_produto := analysis
            copies_geradas := copies
            imagens_geradas := images
            campanha_completa := campaign }

/-! ## AIGeneratorReal (ai_generator_real.py): the expanded mock analyzer -/

/-- Result of _mock_analysis_expanded.  The source renders the price estimate
as the text "R$ low - R$ high" with preco_final = int(preco_base *
fator_preco); the embedding keeps the two numbers (the products are exact in
binary64 for every base price of the brand table, so int() returns the exact
rational product). -/
structure AnaliseExp where
  produto_identificado : String
  tipo_produto : String
  marca : String
  modelo_especifico : String
  categoria : String
  categoria_uso : String
  caracteristicas_principais : List String
  publico_alvo_sugerido : String
  preco_low : Int
  preco_high : Int
  pontos_de_venda : List String
  estrategia_recomendada : String
deriving Repr, DecidableEq

/-- Product-type detection chain of _mock_analysis_expanded. -/
def tipoProdutoExp (pl : String) : String :=
  if containsAny pl ["iphone", "galaxy", "xiaomi", "motorola", "smartphone", "celular"] then
    "smartphone"
  else if containsAny pl ["notebook", "laptop", "macbook"] then "notebook"
  else if containsAny pl ["tablet", "ipad"] then "tablet"
  else if containsAny pl ["tv", "smart tv", "televisão"] then "smart_tv"
  else if containsAny pl ["fone", "headphone", "earphone", "airpods"] then "fone"
  else if containsAny pl ["smartwatch", "watch", "relógio"] then "smartwatch"
  else if containsAny pl ["caixa de som", "speaker", "jbl"] then "caixa_som"
  else "eletronico"

/-- Brand and base-price detection chain of _mock_analysis_expanded. -/
def marcaPrecoExp (pl tipo : String) : String × Nat :=
  if containsAny pl ["iphone", "apple", "macbook", "ipad"] then
    ("Apple", if tipo == "smartphone" then 5000 else 7000)
  else if containsAny pl ["samsung", "galaxy"] then
    ("Samsung", if tipo == "smartphone" then 3500 else 4000)
  else if containsAny pl ["xiaomi", "redmi"] then ("Xiaomi", 2000)
  else if containsAny pl ["motorola", "moto"] then ("Motorola", 1500)
  else ("Premium", 2500)

/-- Usage-category and strategy detection chain of _mock_analysis_expanded.
The premium branch requires pro in the prompt, which the preceding branch
already consumed, so it is unreachable; it is embedded as written. -/
def categoriaUsoExp (pl marca : String) : String × String :=
  if containsAny pl ["gamer", "gaming", "game"] then ("gamer", "gamer")
  else if containsAny pl ["pro", "profissional", "trabalho"] then
    ("profissional", "profissional")
  else if (marca == "Apple" || marca == "Samsung") && strContains pl "pro" then
    ("premium", "premium")
  else ("casual", "custo_beneficio")

/-- Condition detection chain of _mock_analysis_expanded: the condition name
and the price factor as an exact rational numerator/denominator pair
(0.75 = 3/4, 0.60 = 3/5, 1.0 = 1/1). -/
def condExp (pl : String) : String × Nat × Nat :=
  if strContains pl "seminovo" then ("seminovo", 3, 4)
  else if strContains pl "usado" then ("usado", 3, 5)
  else ("novo", 1, 1)

/-- _get_features_for_product.  The marca parameter is accepted and unused,
as in the source. -/
def getFeaturesExp (tipoProduto _marca : String) : List String :=
  if tipoProduto == "smartphone" then
    ["Câmera avançada", "Performance rápida", "Bateria duradoura"]
  else if tipoProduto == "notebook" then
    ["Processador potente", "Tela de qualidade", "Portabilidade"]
  else if tipoProduto == "tablet" then ["Tela touchscreen", "Portabilidade", "Multimídia"]
  else if tipoProduto == "smart_tv" then ["4K Ultra HD", "Smart OS", "Conectividade"]
  else if tipoProduto == "fone" then ["Qualidade sonora", "Conforto", "Cancelamento ruído"]
  else if tipoProduto == "smartwatch" then ["Monitor saúde", "GPS", "Resistência água"]
  else if tipoProduto == "caixa_som" then ["Som potente", "Bluetooth", "Portabilidade"]
  else ["Tecnologia avançada", "Design moderno", "Qualidade premium"]

/-- _get_target_audience. -/
def getTargetAudienceExp (tipoProduto categoriaUso marca : String) : String :=
  if categoriaUso == "gamer" then "Gamers, entusiastas de tecnologia, jovens 18-35 anos"
  else if categoriaUso == "profissional" then
    "Profissionais, empresários, trabalho remoto, 25-50 anos"
  else if marca == "Apple" then "Usuários Apple, criativos, early adopters, classe A-B"
  else if tipoProduto == "smartphone" then "Usuários de smartphone, conectados, 20-45 anos"
  else "Consumidores de eletrônicos, tech enthusiasts, 25-45 anos"

/-- Base selling points table of _get_selling_points. -/
def sellingPointsBase (tipoProduto : String) : List String :=
  if tipoProduto == "smartphone" then
    ["Conectividade 5G", "Câmeras profissionais", "Bateria inteligente"]
  else if tipoProduto == "notebook" then
    ["Produtividade máxima", "Design portátil", "Performance superior"]
  else if tipoProduto == "tablet" then ["Versatilidade total", "Tela premium", "Mobilidade"]
  else if tipoProduto == "smart_tv" then ["Experiência 4K", "Apps integrados", "Som surround"]
  else if tipoProduto == "fone" then
    ["Som cristalino", "Conforto prolongado", "Tecnologia bluetooth"]
  else if tipoProduto == "smartwatch" then ["Saúde 24h", "Estilo moderno", "Autonomia"]
  else if tipoProduto == "caixa_som" then ["Som potente", "Design compacto", "Bateria longa"]
  else ["Tecnologia avançada", "Qualidade garantida", "Melhor preço"]

/-- _get_selling_points. -/
def getSellingPointsExp (tipoProduto categoriaUso : String) : List String :=
  if categoriaUso == "gamer" then ["Performance gaming", "RGB personalizado", "Zero lag"]
  else if categoriaUso == "profissional" then
    ["Produtividade", "Confiabilidade", "Suporte técnico"]
  else sellingPointsBase tipoProduto

/-- _mock_analysis_expanded (ai_generator_real.py lines 506-584). -/
def mockAnalysisExpanded (p : String) : AnaliseExp :=
  let pl := pyLower p
  let tipo := tipoProdutoExp pl
  let mp := marcaPrecoExp pl tipo
  let cu := categoriaUsoExp pl mp.1
  let cond := condExp pl
  let precoFinal : Nat := mp.2 * cond.2.1 / cond.2.2
  { produto_identificado := p
    tipo_produto := tipo
    marca := mp.1
    modelo_especifico := mp.1 ++ " " ++ pyTitle tipo
    categoria := cond.1
    categoria_uso := cu.1
    caracteristicas_principais := getFeaturesExp tipo mp.1
    publico_alvo_sugerido := getTargetAudienceExp tipo cu.1 mp.1
    preco_low := (precoFinal : Int) - 500
    preco_high := (precoFinal : Int) + 500
    pontos_de_venda := getSellingPointsExp tipo cu.1
    estrategia_recomendada := cu.2 }

/-! ## AIGeneratorReal: strategy selection and the image mock -/

/-- One strategy entry of the all_strategies table in
_get_strategies_for_product. -/
structure StrategyExp where
  name : String
  desc : String
  objective : String
  campaign_type : String
deriving Repr, DecidableEq

/-- Lookup in the all_strategies dict of _get_strategies_for_product (the
selected keys are always present in the table). -/
def strategyExpOf (n : String) : StrategyExp :=
  if n == "URGÊNCIA" then
    { name := "URGÊNCIA", desc := "Criar senso de urgência e escassez",
      objective := "Conversão rápida", campaign_type := "conversion" }
  else if n == "PREMIUM" then
    { name := "PREMIUM", desc := "Destacar exclusividade e qualidade superior",
      objective := "Posicionamento alto", campaign_type := "branding" }
  else if n == "CUSTO_BENEFÍCIO" then
    { name := "CUSTO_BENEFÍCIO", desc := "Enfatizar valor e economia",
      objective := "Acessibilidade", campaign_type := "value" }
  else if n == "PROFISSIONAL" then
    { name := "PROFISSIONAL", desc := "Focar em produtividade e performance",
      objective := "B2B e profissionais", campaign_type := "professional" }
  else if n == "GAMER" then
    { name := "GAMER", desc := "Destacar performance para games",
      objective := "Público gamer", campaign_type := "gaming" }
  else
    { name := "LIFESTYLE", desc := "Mostrar como melhora o dia a dia",
      objective := "Aspiracional", campaign_type := "lifestyle" }

/-- _get_strategies_for_product (ai_generator_real.py lines 385-440). -/
def getStrategiesForProduct (estrategiaRecomendada tipoProduto categoriaUso : String)
    (numCopies : Nat) : List StrategyExp :=
  let selected :=
    if categoriaUso == "gamer" || strContains tipoProduto "gamer" then
      ["GAMER", "PREMIUM", "URGÊNCIA"]
    else if categoriaUso == "profissional" || tipoProduto == "notebook"
        || tipoProduto == "tablet" then
      ["PROFISSIONAL", "PREMIUM", "CUSTO_BENEFÍCIO"]
    else if estrategiaRecomendada == "premium" then ["PREMIUM", "LIFESTYLE", "PROFISSIONAL"]
    else if estrategiaRecomendada == "urgencia" then
      ["URGÊNCIA", "CUSTO_BENEFÍCIO", "LIFESTYLE"]
    else ["CUSTO_BENEFÍCIO", "URGÊNCIA", "PREMIUM"]
  (selected.take numCopies).map strategyExpOf

/-- One mock image of _mock_images. -/
structure ImagemExp where
  id : Nat
  url : String
  style : String
  description : String
  generated_by : String
  confidence : ℚ
  strategy : String
  brand_optimized : Bool
deriving Repr

/-- Brand color table of _mock_images (cores.get(marca, cores of Premium)). -/
def coresExp (marca : String) : String × String :=
  if marca == "Apple" then ("f5f5f7", "1d1d1f")
  else if marca == "Samsung" then ("ffffff", "1428a0")
  else if marca == "Xiaomi" then ("ffffff", "ff6900")
  else if marca == "Motorola" then ("ffffff", "0066cc")
  else ("f8f9fa", "2c3e50")

/-- Style list of _mock_images by usage category. -/
def stylesExp (categoriaUso : String) : List String :=
  if categoriaUso == "gamer" then ["Gaming+RGB", "Neon+Setup", "Pro+Gamer"]
  else if categoriaUso == "profissional" then ["Office+Pro", "Business+Clean", "Corporate"]
  else ["Studio+Pro", "Lifestyle", "Premium"]

/-- _mock_images (ai_generator_real.py lines 663-699).  The source reads the
marca, tipo_produto and categoria_uso keys of its product_data argument (with
defaults); the loop runs over range(min(num_images, 3)). -/
def mockImages (marca tipoProduto categoriaUso : String) (numImages : Nat) :
    List ImagemExp :=
  let cores := coresExp marca
  let styles := stylesExp categoriaUso
  (List.range (min numImages 3)).map (fun i =>
    let style := styles.getD i (styles.getD 0 "")
    { id := i + 1
      url := "https://via.placeholder.com/1024x1024/" ++ cores.1 ++ "/" ++ cores.2
        ++ "?text=" ++ marca ++ "+" ++ style
      style := style
      description := "Mock " ++ style ++ " para " ++ tipoProduto
      generated_by := "intelligent_mock"
      confidence := 3/4
      strategy := "MOCK_" ++ toString (i + 1)
      brand_optimized := true })


/-! ## Concrete fixtures used by closed statements -/

/-- A concrete search reference as the Pexels helper builds them. -/
def refX (i : Nat) : Ref :=
  { url := "https://example.org/p" ++ toString i, thumbnail := "t",
    title := "smartphone photo", width := 900, height := 600, source := "pexels",
    photographer := "x", search_term := "smartphone", free_license := true,
    relevance_score := 1 }

/-- Seven distinct references, as one Pexels query (per_page 10) can return. -/
def refs7 : List Ref := (List.range 7).map refX

/-- A concrete analysis fixture. -/
def pdFix : AnaliseFree := mockAnalysisFree "smartphone android"

/-- A concrete prompt fixture. -/
def promptFix : PromptData :=
  { id := 1, strategy := "COMERCIAL", prompt := "p", style := "s", reference_based := true }

/-! ## Helper lemmas shared by the claim theorems -/

/-- The categoria field of the expanded mock analysis is the condition name. -/
theorem mockAnalysisExpanded_categoria (p : String) :
    (mockAnalysisExpanded p).categoria = (condExp (pyLower p)).1 := rfl

/-- The low end of the expanded price range, as computed by the source. -/
theorem mockAnalysisExpanded_preco_low (p : String) :
    (mockAnalysisExpanded p).preco_low =
      (((marcaPrecoExp (pyLower p) (tipoProdutoExp (pyLower p))).2
        * (condExp (pyLower p)).2.1 / (condExp (pyLower p)).2.2 : Nat) : Int) - 500 := rfl

/-- The high end of the expanded price range, as computed by the source. -/
theorem mockAnalysisExpanded_preco_high (p : String) :
    (mockAnalysisExpanded p).preco_high =
      (((marcaPrecoExp (pyLower p) (tipoProdutoExp (pyLower p))).2
        * (condExp (pyLower p)).2.1 / (condExp (pyLower p)).2.2 : Nat) : Int) + 500 := rfl

/-- The brand table produces one of seven base prices. -/
theorem marcaPrecoExp_snd_mem (pl tipo : String) :
    (marcaPrecoExp pl tipo).2 ∈ ([5000, 7000, 3500, 4000, 2000, 1500, 2500] : List Nat) := by
  unfold marcaPrecoExp
  split_ifs <;> simp

/-- The brand table never yields an empty brand. -/
theorem marcaPrecoExp_fst_ne (pl tipo : String) : (marcaPrecoExp pl tipo).1 ≠ "" := by
  unfold marcaPrecoExp
  split_ifs <;> decide

/-- The product-type table never yields an empty type. -/
theorem tipoProdutoExp_ne (pl : String) : tipoProdutoExp pl ≠ "" := by
  unfold tipoProdutoExp
  split_ifs <;> decide

/-- The free context table never yields an empty product type. -/
theorem freeBranch_tipo_ne (pl : String) : (freeBranch pl).tipo ≠ "" := by
  unfold freeBranch
  split_ifs <;> decide

/-- Every branch of the free context table has an ordered price range. -/
theorem freeBranch_preco_le (pl : String) :
    (freeBranch pl).precoLow ≤ (freeBranch pl).precoHigh := by
  unfold freeBranch
  split_ifs <;> decide

/-! ## Claim theorems -/

/-- C1 counterexample.  The claim asserts that for the scenario prompt the
analysis returns brand Apple and a price range reflecting a fixed 256GB
storage increment added to the base price before the 0.75 multiplier.  On the
code: the deployed free-system analyzer returns brand Premium for this
prompt, and the expanded analyzer produces exactly the same price range with
and without the 256GB token, so no storage increment exists. -/
theorem c1_storage_increment_refuted :
    (mockAnalysisFree "iPhone 15 Pro Max 256GB seminovo").marca = "Premium" ∧
    "Premium" ≠ "Apple" ∧
    (mockAnalysisExpanded "iPhone 15 Pro Max 256GB seminovo").preco_low
      = (mockAnalysisExpanded "iPhone 15 Pro Max seminovo").preco_low ∧
    (mockAnalysisExpanded "iPhone 15 Pro Max 256GB seminovo").preco_high
      = (mockAnalysisExpanded "iPhone 15 Pro Max seminovo").preco_high ∧
    (mockAnalysisExpanded "iPhone 15 Pro Max 256GB seminovo").preco_low = 3250 ∧
    (mockAnalysisExpanded "iPhone 15 Pro Max 256GB seminovo").preco_high = 4250 := by
  refine ⟨by decide, by decide, by decide, by decide, by decide, by decide⟩

/-- C1 amended: for the scenario prompt with every provider unavailable, the
expanded mock analyzer returns brand Apple, condition seminovo and the price
range [3250, 4250] (the 0.75 multiplier applied to the Apple smartphone base
price 5000, with no storage increment); the free pipeline returns success with
exactly 3 copies tagged mock_fallback and exactly 3 images (the requested
number) tagged free_reference_mock, for every network oracle. -/
theorem c1_scenario_amended : ∀ o : Oracle,
    (mockAnalysisExpanded "iPhone 15 Pro Max 256GB seminovo").marca = "Apple" ∧
    (mockAnalysisExpanded "iPhone 15 Pro Max 256GB seminovo").categoria = "seminovo" ∧
    (mockAnalysisExpanded "iPhone 15 Pro Max 256GB seminovo").preco_low = 3250 ∧
    (mockAnalysisExpanded "iPhone 15 Pro Max 256GB seminovo").preco_high = 4250 ∧
    match generateFreeCampaign envNone o "iPhone 15 Pro Max 256GB seminovo" with
    | .ok r =>
        r.success = true ∧
        r.copies_geradas.map (·.generated_by)
          = ["mock_fallback", "mock_fallback", "mock_fallback"] ∧
        r.imagens_geradas.map (·.generated_by)
          = ["free_reference_mock", "free_reference_mock", "free_reference_mock"] ∧
        r.imagens_geradas.map (·.id) = [1, 2, 3]
    | .error _ => False := by
  intro o
  exact ⟨by decide, by decide, by decide, by decide, rfl, rfl, rfl, rfl⟩

/-- C2: the fallback-completeness claim is the intent, but the code has a slip:
for the non-empty, whitespace-only prompt consisting of a single space, every
stage falls back successfully, yet create_free_campaign evaluates
produto.split()[0] on a whitespace-only product name, raising IndexError,
which the endpoint converts to a 500 error instead of success.  For a prompt
with a non-whitespace character the intended behavior holds: success with all
copies and images fallback-tagged. -/
theorem c2_whitespace_prompt_500 :
    generateFreeCampaign envNone noOracle " "
      = .error ⟨500, "Erro no processamento gratuito"⟩ ∧
    match generateFreeCampaign envNone noOracle "notebook dell usado" with
    | .ok r =>
        r.success = true ∧
        r.copies_geradas.map (·.generated_by)
          = ["mock_fallback", "mock_fallback", "mock_fallback"] ∧
        r.imagens_geradas.map (·.generated_by)
          = ["free_reference_mock", "free_reference_mock", "free_reference_mock"]
    | .error _ => False :=
  ⟨rfl, rfl, rfl, rfl⟩

/-- C7: the empty prompt is rejected with a 400 client error before any
pipeline stage runs (the guard is the first statement of the endpoint, and the
error branch of the embedding contains no stage call), for every provider
configuration and every oracle. -/
theorem c7_empty_prompt_rejected (env : Env) (o : Oracle) :
    generateFreeCampaign env o "" = .error ⟨400, "Prompt é obrigatório"⟩ := rfl

/-- C9: the heuristic analyzers are deterministic: equal prompts give equal
results.  Both analyzers are embedded as pure functions because the source
functions read no state, perform no I/O and use no randomness; repeated calls
with the same input therefore agree. -/
theorem c9_analyzer_deterministic (p q : String) (h : p = q) :
    mockAnalysisFree p = mockAnalysisFree q ∧
    mockAnalysisExpanded p = mockAnalysisExpanded q := by
  subst h
  exact ⟨rfl, rfl⟩

/-- C9 witness at a concrete prompt. -/
theorem c9_analyzer_deterministic_witness :
    mockAnalysisFree "iphone 13" = mockAnalysisFree "iphone 13" ∧
    mockAnalysisExpanded "iphone 13" = mockAnalysisExpanded "iphone 13" :=
  c9_analyzer_deterministic "iphone 13" "iphone 13" rfl

/-- C10: with no Groq key the copy stage returns the fixed 3-element mock list
sliced to num_copies, hence min(num_copies, 3) copies, never more than 3, and
exactly 3 whenever more than 3 are requested. -/
theorem c10_mock_copies_capped (env : Env) (o : Oracle) (pd : AnaliseFree) (n : Nat)
    (h : env.groq = false) :
    (generateCopiesWithOpenAIFree env o pd n).length = min n 3 ∧
    (generateCopiesWithOpenAIFree env o pd n).length ≤ 3 ∧
    (3 < n → (generateCopiesWithOpenAIFree env o pd n).length = 3) := by
  obtain ⟨pe, un, px, g, hf⟩ := env
  simp only at h
  subst h
  have hl : (generateCopiesWithOpenAIFree ⟨pe, un, px, false, hf⟩ o pd n).length = min n 3 := by
    simp [generateCopiesWithOpenAIFree, mockCopiesFree]
  refine ⟨hl, ?_, ?_⟩
  · omega
  · intro hn
    omega

/-- C10 witness: requesting 7 copies with no Groq key yields exactly 3. -/
theorem c10_mock_copies_capped_witness :
    (generateCopiesWithOpenAIFree envNone noOracle pdFix 7).length = min 7 3 ∧
    (generateCopiesWithOpenAIFree envNone noOracle pdFix 7).length ≤ 3 ∧
    (3 < 7 → (generateCopiesWithOpenAIFree envNone noOracle pdFix 7).length = 3) :=
  c10_mock_copies_capped envNone noOracle pdFix 7 rfl

/-- Every base price of the brand table times 3 is divisible by 4 and by 5, so
the condition multipliers 0.75 and 0.60 produce exact integer prices. -/
theorem marcaPrecoExp_mod (pl tipo : String) :
    ((marcaPrecoExp pl tipo).2 * 3) % 4 = 0 ∧ ((marcaPrecoExp pl tipo).2 * 3) % 5 = 0 := by
  unfold marcaPrecoExp
  split_ifs <;> decide

/-- C3: in the expanded mock analyzer the condition keyword scan maps seminovo
(refurbished) to the exact multiplier 3/4 and usado (used) to 3/5, defaults to
novo (multiplier 1) when neither keyword occurs, the final price is the base
price times the multiplier (exactly, by marcaPrecoExp_mod), and the reported
range is [final - 500, final + 500], for every prompt. -/
theorem c3_condition_multiplier_price_range (p : String) :
    (strContains (pyLower p) "seminovo" = true →
      (mockAnalysisExpanded p).categoria = "seminovo" ∧
      (mockAnalysisExpanded p).preco_low
        = (((marcaPrecoExp (pyLower p) (tipoProdutoExp (pyLower p))).2 * 3 / 4 : Nat) : Int)
          - 500 ∧
      (mockAnalysisExpanded p).preco_high
        = (((marcaPrecoExp (pyLower p) (tipoProdutoExp (pyLower p))).2 * 3 / 4 : Nat) : Int)
          + 500) ∧
    (strContains (pyLower p) "seminovo" = false → strContains (pyLower p) "usado" = true →
      (mockAnalysisExpanded p).categoria = "usado" ∧
      (mockAnalysisExpanded p).preco_low
        = (((marcaPrecoExp (pyLower p) (tipoProdutoExp (pyLower p))).2 * 3 / 5 : Nat) : Int)
          - 500 ∧
      (mockAnalysisExpanded p).preco_high
        = (((marcaPrecoExp (pyLower p) (tipoProdutoExp (pyLower p))).2 * 3 / 5 : Nat) : Int)
          + 500) ∧
    (strContains (pyLower p) "seminovo" = false → strContains (pyLower p) "usado" = false →
      (mockAnalysisExpanded p).categoria = "novo" ∧
      (mockAnalysisExpanded p).preco_low
        = (((marcaPrecoExp (pyLower p) (tipoProdutoExp (pyLower p))).2 : Nat) : Int) - 500 ∧
      (mockAnalysisExpanded p).preco_high
        = (((marcaPrecoExp (pyLower p) (tipoProdutoExp (pyLower p))).2 : Nat) : Int) + 500) ∧
    (mockAnalysisExpanded p).preco_high - (mockAnalysisExpanded p).preco_low = 1000 := by
  refine ⟨?_, ?_, ?_, ?_⟩
  · intro h
    refine ⟨?_, ?_, ?_⟩
    · rw [mockAnalysisExpanded_categoria]
      simp [condExp, h]
    · rw [mockAnalysisExpanded_preco_low]
      simp [condExp, h]
    · rw [mockAnalysisExpanded_preco_high]
      simp [condExp, h]
  · intro h1 h2
    refine ⟨?_, ?_, ?_⟩
    · rw [mockAnalysisExpanded_categoria]
      simp [condExp, h1, h2]
    · rw [mockAnalysisExpanded_preco_low]
      simp [condExp, h1, h2]
    · rw [mockAnalysisExpanded_preco_high]
      simp [condExp, h1, h2]
  · intro h1 h2
    refine ⟨?_, ?_, ?_⟩
    · rw [mockAnalysisExpanded_categoria]
      simp [condExp, h1, h2]
    · rw [mockAnalysisExpanded_preco_low]
      simp [condExp, h1, h2]
    · rw [mockAnalysisExpanded_preco_high]
      simp [condExp, h1, h2]
  · rw [mockAnalysisExpanded_preco_low, mockAnalysisExpanded_preco_high]
    omega

/-- C3 witness: a used iPhone gets the 3/5 multiplier on the Apple smartphone
base price. -/
theorem c3_condition_multiplier_price_range_witness :
    (mockAnalysisExpanded "iphone usado").categoria = "usado" ∧
    (mockAnalysisExpanded "iphone usado").preco_low
      = (((marcaPrecoExp (pyLower "iphone usado")
            (tipoProdutoExp (pyLower "iphone usado"))).2 * 3 / 5 : Nat) : Int) - 500 ∧
    (mockAnalysisExpanded "iphone usado").preco_high
      = (((marcaPrecoExp (pyLower "iphone usado")
            (tipoProdutoExp (pyLower "iphone usado"))).2 * 3 / 5 : Nat) : Int) + 500 :=
  (c3_condition_multiplier_price_range "iphone usado").2.1 (by decide) (by decide)

/-- C4 counterexample: the image mock of AIGeneratorReal slices to
min(num_images, 3), so requesting 5 images there yields 3 images with ids
1..3, not 5. -/
theorem c4_legacy_mock_caps_at_three :
    (mockImages "Apple" "smartphone" "casual" 5).length = 3 ∧
    (mockImages "Apple" "smartphone" "casual" 5).map (·.id) = [1, 2, 3] := by
  refine ⟨by decide, by decide⟩

/-- C4 amended: with the Groq and HuggingFace providers unavailable (all-mock
prompt and image generation), the free-system image stage returns exactly 5
images with unique ids 1..5 when 5 are requested, for every search-provider
configuration, oracle, analysis and copy list; the legacy AIGeneratorReal
image mock instead returns min(num_images, 3) images. -/
theorem c4_image_count_five_amended (env : Env) (o : Oracle) (pd : AnaliseFree)
    (copies : List CopyFree) (hg : env.groq = false) (hh : env.hf = false) :
    ((generateImagesWithFreeSearch env o pd copies 5).length = 5 ∧
     (generateImagesWithFreeSearch env o pd copies 5).map (·.id) = [1, 2, 3, 4, 5]) ∧
    ∀ (marca tipoProduto categoriaUso : String) (n : Nat),
      (mockImages marca tipoProduto categoriaUso n).length = min n 3 := by
  obtain ⟨pe, un, px, g, hf⟩ := env
  simp only at hg hh
  subst hg
  subst hh
  refine ⟨⟨rfl, rfl⟩, ?_⟩
  intro marca tipoProduto categoriaUso n
  simp [mockImages]

/-- C4 witness: the concrete all-mock configuration with 5 requested images. -/
theorem c4_image_count_five_amended_witness :
    (generateImagesWithFreeSearch envNone noOracle pdFix [] 5).length = 5 ∧
    (generateImagesWithFreeSearch envNone noOracle pdFix [] 5).map (·.id) = [1, 2, 3, 4, 5] :=
  (c4_image_count_five_amended envNone noOracle pdFix [] rfl rfl).1

/-- C5 counterexample: in the free system the strategy triple for a
professional recommendation is PROFISSIONAL, PREMIUM, COMERCIAL; no strategy
of type value (CUSTO_BENEFÍCIO) appears in it, contradicting the claimed
PROFESSIONAL, PREMIUM, VALUE triple. -/
theorem c5_free_professional_triple_counterexample :
    (getCopyStrategies "profissional" 3).map (·.name)
      = ["PROFISSIONAL", "PREMIUM", "COMERCIAL"] ∧
    (getCopyStrategies "profissional" 3).map (·.ty)
      = ["professional", "branding", "commercial"] ∧
    ¬ ((getCopyStrategies "profissional" 3).map (·.name)).contains "CUSTO_BENEFÍCIO" = true ∧
    ¬ ((getCopyStrategies "profissional" 3).map (·.ty)).contains "value" = true := by
  refine ⟨by decide, by decide, by decide, by decide⟩

/-- C5 amended: in AIGeneratorReal, gaming-context products (categoria_uso
gamer or gamer occurring in the product type) get the GAMER, PREMIUM, URGÊNCIA
triple, and professional-context products (categoria_uso profissional or type
notebook or tablet, when not gaming) get PROFISSIONAL, PREMIUM,
CUSTO_BENEFÍCIO; in the free system the selection is keyed only on
estrategia_recomendada and the professional and premium triples end in
COMERCIAL, with no gaming rule. -/
theorem c5_strategy_selection_amended (est tipo catUso : String) :
    ((catUso = "gamer" ∨ strContains tipo "gamer" = true) →
      (getStrategiesForProduct est tipo catUso 3).map (·.name)
        = ["GAMER", "PREMIUM", "URGÊNCIA"]) ∧
    ((catUso ≠ "gamer" ∧ strContains tipo "gamer" = false) →
      (catUso = "profissional" ∨ tipo = "notebook" ∨ tipo = "tablet") →
      (getStrategiesForProduct est tipo catUso 3).map (·.name)
        = ["PROFISSIONAL", "PREMIUM", "CUSTO_BENEFÍCIO"]) ∧
    (getCopyStrategies "profissional" 3).map (·.name)
      = ["PROFISSIONAL", "PREMIUM", "COMERCIAL"] ∧
    (getCopyStrategies "premium" 3).map (·.name)
      = ["PREMIUM", "PROFISSIONAL", "COMERCIAL"] := by
  refine ⟨?_, ?_, by decide, by decide⟩
  · intro h
    have hb : (catUso == "gamer" || strContains tipo "gamer") = true := by
      rcases h with h | h
      · subst h; simp
      · simp [h]
    simp only [getStrategiesForProduct, hb, if_true]
    decide
  · rintro ⟨h1, h2⟩ h3
    have hb : (catUso == "gamer" || strContains tipo "gamer") = false := by
      simp only [h2, Bool.or_false, beq_eq_false_iff_ne, ne_eq]
      exact h1
    have hb2 : (catUso == "profissional" || tipo == "notebook" || tipo == "tablet") = true := by
      rcases h3 with h3 | h3 | h3 <;> simp [h3]
    simp only [getStrategiesForProduct, hb, hb2, Bool.false_eq_true, if_false, if_true]
    decide

/-- C5 witness: the two context rules at concrete inputs. -/
theorem c5_strategy_selection_amended_witness :
    (getStrategiesForProduct "x" "y" "gamer" 3).map (·.name)
      = ["GAMER", "PREMIUM", "URGÊNCIA"] ∧
    (getStrategiesForProduct "x" "tablet" "casual" 3).map (·.name)
      = ["PROFISSIONAL", "PREMIUM", "CUSTO_BENEFÍCIO"] :=
  ⟨(c5_strategy_selection_amended "x" "y" "gamer").1 (Or.inl rfl),
   (c5_strategy_selection_amended "x" "tablet" "casual").2.1 ⟨by decide, by decide⟩
     (Or.inr (Or.inr rfl))⟩

/-- C6 counterexample: with 7 references found (which the universal ranking
permits, returning up to 8), the reference-based mock has confidence
0.80 + 7 times 0.03 = 1.01, outside [0, 1]. -/
theorem c6_confidence_exceeds_one :
    (createReferenceBasedMock pdFix promptFix refs7 1).confidence = 101/100 ∧
    ¬ ((createReferenceBasedMock pdFix promptFix refs7 1).confidence ≤ 1) ∧
    (universalRanking refs7 pdFix).length = 7 := by
  have hc : (createReferenceBasedMock pdFix promptFix refs7 1).confidence
      = 4/5 + ((refs7.length : ℚ) * (3/100)) := rfl
  have hl : refs7.length = 7 := by decide
  refine ⟨?_, ?_, by decide⟩
  · rw [hc, hl]; norm_num
  · rw [hc, hl]; norm_num

/-- C6 amended: the reference-based mock has confidence exactly
0.80 + 0.03 times the number of references, always at least 0.80, and within
[0, 1] precisely when at most 6 references were found; the universal ranking
caps the references passed on at 8, so confidences up to 1.04 can occur. -/
theorem c6_confidence_formula_amended (pd : AnaliseFree) (pr : PromptData)
    (refs : List Ref) (imageId : Nat) :
    (createReferenceBasedMock pd pr refs imageId).confidence
      = 4/5 + (refs.length : ℚ) * (3/100) ∧
    (4/5 : ℚ) ≤ (createReferenceBasedMock pd pr refs imageId).confidence ∧
    ((createReferenceBasedMock pd pr refs imageId).confidence ≤ 1 ↔ refs.length ≤ 6) ∧
    ∀ (refs2 : List Ref) (pd2 : AnaliseFree), (universalRanking refs2 pd2).length ≤ 8 := by
  have hconf : (createReferenceBasedMock pd pr refs imageId).confidence
      = 4/5 + (refs.length : ℚ) * (3/100) := rfl
  refine ⟨hconf, ?_, ?_, ?_⟩
  · rw [hconf]
    have h0 : (0:ℚ) ≤ (refs.length : ℚ) * (3/100) := by positivity
    linarith
  · rw [hconf]
    constructor
    · intro h
      have h4 : (refs.length : ℚ) < 7 := by linarith
      have h5 : refs.length < 7 := by exact_mod_cast h4
      omega
    · intro h
      have h6 : (refs.length : ℚ) ≤ 6 := by exact_mod_cast h
      linarith
  · intro refs2 pd2
    cases refs2 with
    | nil => simp [universalRanking]
    | cons a l =>
      simp only [universalRanking]
      rw [List.length_take]
      omega

/-- C8: both heuristic analyzers are total on non-empty prompts: the result
always has a non-empty brand, a non-empty product type, and an ordered price
range (the embeddings are total Lean functions, matching the absence of any
raising operation in the source functions). -/
theorem c8_analyzer_totality (p : String) (h : p ≠ "") :
    (mockAnalysisFree p).marca ≠ "" ∧
    (mockAnalysisFree p).tipo_produto ≠ "" ∧
    (mockAnalysisFree p).preco_low ≤ (mockAnalysisFree p).preco_high ∧
    (mockAnalysisExpanded p).marca ≠ "" ∧
    (mockAnalysisExpanded p).tipo_produto ≠ "" ∧
    (mockAnalysisExpanded p).preco_low ≤ (mockAnalysisExpanded p).preco_high := by
  refine ⟨?_, freeBranch_tipo_ne (pyLower p), freeBranch_preco_le (pyLower p),
    marcaPrecoExp_fst_ne (pyLower p) (tipoProdutoExp (pyLower p)),
    tipoProdutoExp_ne (pyLower p), ?_⟩
  · have hm : (mockAnalysisFree p).marca = "Premium" := rfl
    rw [hm]
    decide
  · rw [mockAnalysisExpanded_preco_low, mockAnalysisExpanded_preco_high]
    omega

/-- C8 witness at a concrete non-empty prompt. -/
theorem c8_analyzer_totality_witness :
    (mockAnalysisFree "iphone").marca ≠ "" ∧
    (mockAnalysisFree "iphone").tipo_produto ≠ "" ∧
    (mockAnalysisFree "iphone").preco_low ≤ (mockAnalysisFree "iphone").preco_high ∧
    (mockAnalysisExpanded "iphone").marca ≠ "" ∧
    (mockAnalysisExpanded "iphone").tipo_produto ≠ "" ∧
    (mockAnalysisExpanded "iphone").preco_low ≤ (mockAnalysisExpanded "iphone").preco_high :=
  c8_analyzer_totality "iphone" (by decide)

end AAS
